import Mathlib

/-!
Verification of the block-identifier resolution and error-normalization
layer of a Substrate REST sidecar.

The development shallowly embeds the TypeScript source:

* `AbstractController.getHashForBlock`, `parseNumberOrThrow`,
  `verifyAndCastOr`, `getHashFromAt`, `catchWrap` (controller base class);
* `txErrorMiddleware` (transaction-error middleware);
* the number sanitizer and the legacy-error shape predicates, which are
  imported by the source from modules not present in this tree and are
  therefore modelled from the specification.

Conventions of the embedding:

* JavaScript strings are Lean `String`s, manipulated through `String.toList`
  (the inputs that decide the claims are ASCII, where JS UTF-16 indexing and
  Lean code-point indexing agree).
* JavaScript `Number(string)` coercion is embedded exactly: the numeric
  literal grammar (whitespace trimming, optional sign, `Infinity`, decimal
  literals with fraction and exponent, and unsigned `0x`/`0o`/`0b` literals)
  yields an exact mathematical value, which is then rounded to the nearest
  IEEE-754 binary64 value (ties to even, overflow to infinity) represented
  as a mantissa/binary-exponent pair.
* The chain client (`this.api.rpc.chain`) is a record of fallible lookups,
  and every embedded operation additionally returns the list of chain-client
  calls it performed, so that "without contacting the chain client" is the
  statement that this list is empty.
* A `throw` of an HTTP error is an `Except.error` carrying the tagged error;
  a rethrown non-HTTP upstream error is the `upstream` tag.
-/

namespace Sidecar

/-- Whitespace characters stripped by JavaScript string-to-number coercion
(`StrWhiteSpaceChar`): tab, LF, VT, FF, CR, space, NBSP, BOM and the line
separators. -/
def isJsSpace (c : Char) : Bool :=
  c == ' ' || c == '\t' || c == '\n' || c == '\r' || c.val == 11 || c.val == 12 ||
    c.val == 0xa0 || c.val == 0xfeff || c.val == 0x2028 || c.val == 0x2029

/-- Both-ends whitespace trim performed by `Number()` before parsing. -/
def jsTrim (s : String) : List Char :=
  ((s.toList.dropWhile isJsSpace).reverse.dropWhile isJsSpace).reverse

/-- Value of a string of decimal digits, most significant first. -/
def digitsToNat (cs : List Char) : Nat :=
  cs.foldl (fun acc c => acc * 10 + (c.toNat - 48)) 0

/-- Value of one hexadecimal digit (also covers octal and binary digits). -/
def hexDigitToNat (c : Char) : Nat :=
  if c.isDigit then c.toNat - 48
  else if 'a' ≤ c && c ≤ 'f' then c.toNat - 87
  else if 'A' ≤ c && c ≤ 'F' then c.toNat - 55
  else 0

/-- Value of a digit string in a given radix, most significant first. -/
def radixToNat (radix : Nat) (cs : List Char) : Nat :=
  cs.foldl (fun acc c => acc * radix + hexDigitToNat c) 0

def isHexDigitChar (c : Char) : Bool :=
  ('0' ≤ c && c ≤ '9') || ('a' ≤ c && c ≤ 'f') || ('A' ≤ c && c ≤ 'F')

def isOctalDigit (c : Char) : Bool := '0' ≤ c && c ≤ '7'

def isBinaryDigit (c : Char) : Bool := c == '0' || c == '1'

/-- Mathematical value of a JavaScript numeric string before IEEE rounding:
not-a-number, a signed infinity, or a signed exact value
`(-1)^neg * mant * 10^exp10`. -/
inductive JsMV where
  | nan
  | inf (neg : Bool)
  | dec (neg : Bool) (mant : Nat) (exp10 : Int)
deriving Repr, DecidableEq

/-- Parse the optional exponent tail of a decimal literal (`e`/`E`, optional
sign, then at least one digit); `[]` means "no exponent part" with value 0. -/
def parseExpPart : List Char → Option Int
  | [] => some 0
  | c :: rest =>
    if c == 'e' || c == 'E' then
      match rest with
      | '+' :: ds =>
        if !ds.isEmpty && ds.all Char.isDigit then some ((digitsToNat ds : Int)) else none
      | '-' :: ds =>
        if !ds.isEmpty && ds.all Char.isDigit then some (-(digitsToNat ds : Int)) else none
      | ds =>
        if !ds.isEmpty && ds.all Char.isDigit then some ((digitsToNat ds : Int)) else none
    else none

/-- Parse `StrUnsignedDecimalLiteral`: `digits [. digits] [exp]` or
`. digits [exp]`; returns the mantissa digits' value and the decimal
exponent. -/
def parseUnsignedDec (cs : List Char) : Option (Nat × Int) :=
  let ip := cs.takeWhile Char.isDigit
  let rest := cs.dropWhile Char.isDigit
  match rest with
  | '.' :: afterDot =>
    let fp := afterDot.takeWhile Char.isDigit
    let afterFrac := afterDot.dropWhile Char.isDigit
    if ip.isEmpty && fp.isEmpty then none
    else
      match parseExpPart afterFrac with
      | some ex => some (digitsToNat (ip ++ fp), ex - (fp.length : Int))
      | none => none
  | _ =>
    if ip.isEmpty then none
    else
      match parseExpPart rest with
      | some ex => some (digitsToNat ip, ex)
      | none => none

/-- Parse a signed decimal body: exactly the string `Infinity`, or an
unsigned decimal literal; anything else is NaN. -/
def unsignedDecMV (neg : Bool) (cs : List Char) : JsMV :=
  if cs == "Infinity".toList then .inf neg
  else
    match parseUnsignedDec cs with
    | some (m, e) => .dec neg m e
    | none => .nan

/-- Parse an unsigned non-decimal (`0x`/`0o`/`0b`) digit run. -/
def radixMV (pred : Char → Bool) (radix : Nat) (cs : List Char) : JsMV :=
  if !cs.isEmpty && cs.all pred then .dec false (radixToNat radix cs) 0 else .nan

/-- Mathematical value of a trimmed JavaScript numeric string: the empty
string is `+0`; `0x`/`0X`/`0o`/`0O`/`0b`/`0B` prefixes introduce unsigned
non-decimal integer literals; otherwise an optional sign followed by
`Infinity` or a decimal literal. -/
def jsMVOfList : List Char → JsMV
  | [] => .dec false 0 0
  | '0' :: 'x' :: rest => radixMV isHexDigitChar 16 rest
  | '0' :: 'X' :: rest => radixMV isHexDigitChar 16 rest
  | '0' :: 'o' :: rest => radixMV isOctalDigit 8 rest
  | '0' :: 'O' :: rest => radixMV isOctalDigit 8 rest
  | '0' :: 'b' :: rest => radixMV isBinaryDigit 2 rest
  | '0' :: 'B' :: rest => radixMV isBinaryDigit 2 rest
  | '+' :: rest => unsignedDecMV false rest
  | '-' :: rest => unsignedDecMV true rest
  | cs => unsignedDecMV false cs

/-- Floor of the base-2 logarithm of a positive natural number, written with
a structural fuel argument so it reduces in the kernel; agrees with
`Nat.log2` whenever `n ≤ fuel`. -/
def log2Fuel : Nat → Nat → Nat
  | 0, _ => 0
  | fuel + 1, n => if 2 ≤ n then log2Fuel fuel (n / 2) + 1 else 0

/-- Floor of the base-2 logarithm (kernel-reducible form). -/
def natLog2 (n : Nat) : Nat := log2Fuel n n

/-- Floor of the base-2 logarithm of the positive rational `num / den`. -/
def floorLog2Frac (num den : Nat) : Int :=
  let k : Int := natLog2 num
  let m : Int := natLog2 den
  let c := k - m
  if den * 2 ^ c.toNat ≤ num * 2 ^ (-c).toNat then c else c - 1

/-- Round the nonnegative rational `p / q` (with `q > 0`) to the nearest
integer, ties to even. -/
def roundMantissa (p q : Nat) : Nat :=
  let w := p / q
  let r2 := 2 * (p % q)
  if r2 < q then w else if q < r2 then w + 1 else if w % 2 == 0 then w else w + 1

/-- Round the exact magnitude `mant * 10^exp10` to the nearest IEEE-754
binary64 magnitude (ties to even), returned as `some (m, E)` with value
`m * 2^E`, or `none` on overflow to infinity. -/
def toDouble (mant : Nat) (exp10 : Int) : Option (Nat × Int) :=
  if mant == 0 then some (0, 0)
  else
    let num := mant * 10 ^ exp10.toNat
    let den := 10 ^ (-exp10).toNat
    let e := floorLog2Frac num den
    let expo := max (e - 52) (-1074)
    let p := num * 2 ^ (-expo).toNat
    let q := den * 2 ^ expo.toNat
    let m := roundMantissa p q
    if (1024 : Int) - expo ≤ (natLog2 m : Int) then none else some (m, expo)

/-- A JavaScript number as produced by `Number(string)`: NaN, a signed
infinity, or a finite double `(-1)^neg * m * 2^exp2`. -/
inductive JsNum where
  | nan
  | inf (neg : Bool)
  | finite (neg : Bool) (m : Nat) (exp2 : Int)
deriving Repr, DecidableEq

/-- The JavaScript `Number(s)` coercion for strings. -/
def jsNumber (s : String) : JsNum :=
  match jsMVOfList (jsTrim s) with
  | .nan => .nan
  | .inf b => .inf b
  | .dec neg mant e =>
    match toDouble mant e with
    | none => .inf neg
    | some (m, expo) => .finite neg m expo

/-- Modelled from the spec: the legacy upstream error object probed by the
shape predicates `isBasicLegacyError` and `isTxLegacyError`, whose defining
module (`src/types/errors`) is not part of this tree. A field is `some`
when the corresponding property is present on the JavaScript object. The
spec's `UpstreamBasicError` carries `error`, `data`, `cause`; its
`UpstreamTxError` additionally carries `transaction` and `stack`. -/
structure RawLegacyError where
  error : Option String
  data : Option String
  cause : Option String
  stack : Option String
  transaction : Option String
deriving Repr, DecidableEq

/-- Modelled from the spec: the guard for the `UpstreamBasicError` shape
(`error`, `data`, `cause` present); its source module is not in this tree. -/
def isBasicLegacyError (e : RawLegacyError) : Bool :=
  e.error.isSome && e.data.isSome && e.cause.isSome

/-- Modelled from the spec: the guard for the `UpstreamTxError` shape
(`error`, `data`, `cause`, `transaction`, `stack` present); its source
module is not in this tree. -/
def isTxLegacyError (e : RawLegacyError) : Bool :=
  e.error.isSome && e.data.isSome && e.cause.isSome &&
    e.transaction.isSome && e.stack.isSome

/-- A thrown error as it escapes the controller layer: the two `http-errors`
classes constructed by the controller (`BadRequest` = HTTP 400 `InputError`,
`InternalServerError` = HTTP 500 `InternalError`), or a rethrown upstream
(non-`HttpError`) value. -/
inductive SidecarError where
  | badRequest (message : String)
  | internalServerError (message : String)
  | upstream (err : RawLegacyError)
deriving Repr, DecidableEq

/-- The chain-client collaborator (`this.api.rpc.chain`): fallible
hash-at-height, current-header and finalized-head lookups. A failure is the
raw rejection value. -/
structure ChainClient where
  getBlockHash : Nat → Except RawLegacyError String
  getHeader : Except RawLegacyError Nat
  getFinalizedHead : Except RawLegacyError String

/-- One chain-client call, recorded in the order the embedded code makes
them. -/
inductive ApiCall where
  | getBlockHash (height : Nat)
  | getHeader
  | getFinalizedHead
deriving Repr, DecidableEq

/-- The `blockId.slice(0, 2) === '0x'` test of `getHashForBlock`. -/
def slice0x (s : String) : Bool :=
  s.toList.take 2 == ['0', 'x']

/-- The `@polkadot/util` `isHex` with default arguments, as called by
`getHashForBlock`: the string `0x` itself, or `0x` followed by at least one
hex digit, and of even length. -/
def isHex (s : String) : Bool :=
  let cs := s.toList
  (cs == ['0', 'x'] ||
    (cs.take 2 == ['0', 'x'] && !(cs.drop 2).isEmpty && (cs.drop 2).all isHexDigitChar))
  && cs.length % 2 == 0

/-- Message of the wrong-length-hex `BadRequest` in `getHashForBlock`. -/
def wrongLengthMsg (blockId : String) : String :=
  "Cannot get block hash for " ++ blockId ++
    ". Hex string block IDs must be 32-bytes (66-characters) in length."

/-- Message of the invalid-hex `BadRequest` in `getHashForBlock`. -/
def notValidHexMsg (blockId : String) : String :=
  "Cannot get block hash for " ++ blockId ++
    ". Hex string block IDs must be a valid hex string " ++
    "and must be 32-bytes (66-characters) in length."

/-- Message of the `BadRequest` thrown when `parseNumberOrThrow` rejects the
identifier in `getHashForBlock`. -/
def notHexOrDecimalMsg (blockId : String) : String :=
  "Cannot get block hash for " ++ blockId ++
    ". Block IDs must be either 32-byte hex strings or non-negative decimal integers."

/-- Message of the `InternalServerError` thrown when the fallback header
lookup itself fails. -/
def latestHeaderFailMsg : String :=
  "Failed while trying to get the latest header."

/-- Message of the `BadRequest` thrown when the requested height exceeds the
largest known block number `n`. -/
def largestBlockMsg (n : Nat) : String :=
  "Specified block number is larger than the current largest block. " ++
    "The largest known block number is " ++ Nat.repr n ++ "."

/-- Message of the final fallback `InternalServerError` in
`getHashForBlock`. -/
def cannotGetBlockHashMsg (blockId : String) : String :=
  "Cannot get block hash for " ++ blockId ++ "."

/-- The `AbstractController.parseNumberOrThrow` helper: coerce with
JavaScript `Number`, reject unless the result is an integer that is not
negative (`!Number.isInteger(num) || num < 0` throws `BadRequest`), and
return the value. -/
def parseNumberOrThrow (n : String) (errorMessage : String) : Except SidecarError Nat :=
  match jsNumber n with
  | .finite neg m exp2 =>
    if (decide (0 ≤ exp2) || m % 2 ^ (-exp2).toNat == 0) && (!neg || m == 0) then
      .ok (if 0 ≤ exp2 then m * 2 ^ exp2.toNat else m / 2 ^ (-exp2).toNat)
    else .error (.badRequest errorMessage)
  | _ => .error (.badRequest errorMessage)

/-- The `AbstractController.getHashForBlock` resolver, paired with the list
of chain-client calls it performs. The branches mirror the source: a
66-character hex string is returned verbatim (`createType` wraps it without
a chain call); other `isHex` strings and other `0x`-prefixed strings throw
`BadRequest`; otherwise the identifier is parsed as a height and looked up;
on lookup failure the current header is fetched to disambiguate, yielding
the too-large `BadRequest`, a rethrow of a basic legacy error, or the
fallback `InternalServerError`; `HttpError`s thrown by the inner block are
rethrown unchanged by the outer catch. -/
def getHashForBlock (api : ChainClient) (blockId : String) :
    Except SidecarError String × List ApiCall :=
  if isHex blockId ∧ blockId.length = 66 then
    (.ok blockId, [])
  else if isHex blockId then
    (.error (.badRequest (wrongLengthMsg blockId)), [])
  else if slice0x blockId then
    (.error (.badRequest (notValidHexMsg blockId)), [])
  else
    match parseNumberOrThrow blockId "Invalid block number" with
    | .error _ => (.error (.badRequest (notHexOrDecimalMsg blockId)), [])
    | .ok blockNumber =>
      match api.getBlockHash blockNumber with
      | .ok hash => (.ok hash, [.getBlockHash blockNumber])
      | .error err =>
        match api.getHeader with
        | .error _ =>
          (.error (.internalServerError latestHeaderFailMsg),
            [.getBlockHash blockNumber, .getHeader])
        | .ok headerNumber =>
          if blockNumber ≠ 0 ∧ headerNumber < blockNumber then
            (.error (.badRequest (largestBlockMsg headerNumber)),
              [.getBlockHash blockNumber, .getHeader])
          else if isBasicLegacyError err then
            (.error (.upstream err), [.getBlockHash blockNumber, .getHeader])
          else
            (.error (.internalServerError (cannotGetBlockHashMsg blockId)),
              [.getBlockHash blockNumber, .getHeader])

/-- A JavaScript value as it can appear in `req.query` or be passed to the
`unknown`-typed helpers: only the distinctions the embedded code makes
(string / non-string, truthiness) are represented. -/
inductive JsVal where
  | vUndefined
  | vNull
  | vBool (b : Bool)
  | vNum (n : Int)
  | vNaN
  | vStr (s : String)
  | vObject
deriving Repr, DecidableEq

/-- JavaScript truthiness of a `JsVal` (`undefined`, `null`, `false`, `0`,
`NaN` and the empty string are falsy). -/
def truthy : JsVal → Bool
  | .vUndefined => false
  | .vNull => false
  | .vBool b => b
  | .vNum n => n != 0
  | .vNaN => false
  | .vStr s => !s.isEmpty
  | .vObject => true

/-- The `AbstractController.getHashFromAt` helper: resolve a string `at`
query parameter through `getHashForBlock`, and any non-string value through
the finalized-head lookup; a failed finalized-head lookup rejects with the
raw upstream error. -/
def getHashFromAt (api : ChainClient) (atParam : JsVal) :
    Except SidecarError String × List ApiCall :=
  match atParam with
  | .vStr s => getHashForBlock api s
  | _ =>
    match api.getFinalizedHead with
    | .ok h => (.ok h, [.getFinalizedHead])
    | .error e => (.error (.upstream e), [.getFinalizedHead])

/-- The `AbstractController.verifyAndCastOr` query-parameter parser: a falsy
value returns the caller-supplied default, a truthy non-string throws
`BadRequest`, and a truthy string goes through `parseNumberOrThrow`. -/
def verifyAndCastOr (name : String) (value : JsVal) (orDefault : Option Nat) :
    Except SidecarError (Option Nat) :=
  if !truthy value then .ok orDefault
  else
    match value with
    | .vStr s =>
      match parseNumberOrThrow s (name ++ " query param is an invalid number") with
      | .ok n => .ok (some n)
      | .error e => .error e
    | _ =>
      .error (.badRequest
        ("Incorrect argument quantity or type passed in for " ++ name ++ " query param"))

/-- Response body written by `txErrorMiddleware` on a transaction fault. -/
structure TxErrorBody where
  code : Nat
  error : Option String
  data : Option String
  transaction : Option String
  cause : Option String
  stack : Option String
deriving Repr, DecidableEq

/-- Observable effect of one error-middleware invocation: either delegate to
the next middleware with an (unchanged) error, or write a status and body to
the response. -/
inductive MwStep where
  | next (err : RawLegacyError)
  | send (status : Nat) (body : TxErrorBody)
deriving Repr, DecidableEq

/-- The `txErrorMiddleware` handler: if headers were already sent or the
error does not match the transaction-fault shape, pass the error to `next`
unchanged; otherwise respond 500 with the destructured fields. -/
def txErrorMiddleware (headersSent : Bool) (err : RawLegacyError) : MwStep :=
  if headersSent || !isTxLegacyError err then .next err
  else .send 500 ⟨500, err.error, err.data, err.transaction, err.cause, err.stack⟩

/-- Execution of a wrapped request handler, as `catchWrap` observes it: it
either resolves, throws synchronously, or returns a promise that rejects
(`await` surfaces both failure modes inside the `try`). -/
inductive HandlerOutcome (ε : Type) where
  | resolves
  | syncThrow (e : ε)
  | rejects (e : ε)
deriving Repr, DecidableEq

/-- Result of running a `catchWrap`-wrapped handler: whether the wrapper's
own promise rejects, and the errors it delivered to `next`. -/
structure GuardResult (ε : Type) where
  promiseRejection : Option ε
  nextCalls : List ε
deriving Repr, DecidableEq

/-- The `AbstractController.catchWrap` guard: run the handler inside
`try { await cb(...) } catch (err) { next(err) }`. -/
def catchWrap {ε : Type} (run : HandlerOutcome ε) : GuardResult ε :=
  match run with
  | .resolves => ⟨none, []⟩
  | .syncThrow e => ⟨none, [e]⟩
  | .rejects e => ⟨none, [e]⟩

mutual
/-- Modelled from the spec: a JSON-like response value as seen by the number
sanitizer (`sanitizeNumbers`, imported by the source from a `sanitize`
module not present in this tree). Leaves are null, booleans, plain (small)
numbers, strings, and chain-native big integers; containers are ordered
sequences and ordered key-value objects. -/
inductive JsonValue where
  | null : JsonValue
  | bool (b : Bool) : JsonValue
  | num (n : Int) : JsonValue
  | str (s : String) : JsonValue
  | bignum (n : Nat) : JsonValue
  | arr (elems : JsonArray) : JsonValue
  | obj (fields : JsonObject) : JsonValue

inductive JsonArray where
  | nil : JsonArray
  | cons (hd : JsonValue) (tl : JsonArray) : JsonArray

inductive JsonObject where
  | nil : JsonObject
  | cons (key : String) (val : JsonValue) (tl : JsonObject) : JsonObject
end

/-- Little-endian decimal digits of `n`, produced with a structural fuel
argument so the definition reduces in the kernel; correct whenever
`n ≤ fuel`. -/
def toDigitsRevFuel : Nat → Nat → List Char
  | 0, _ => []
  | fuel + 1, n => if n = 0 then [] else Nat.digitChar (n % 10) :: toDigitsRevFuel fuel (n / 10)

/-- Canonical decimal string of a natural number. -/
def decimalRepr (n : Nat) : String :=
  if n = 0 then "0" else String.mk (toDigitsRevFuel n n).reverse

/-- A non-empty all-digit string, the numeric-string leaves the sanitizer
rewrites. -/
def isNumericString (s : String) : Bool :=
  !s.toList.isEmpty && s.toList.all Char.isDigit

mutual
/-- Modelled from the spec: `sanitizeNumbers` (its `sanitize` source module
is absent from this tree). It traverses the value structurally, preserving
keys, order and length; chain-native big integers and numeric-string leaves
are rewritten to canonical decimal strings; every other leaf passes through
unchanged; it is total, with no failure path. -/
def sanitizeNumbers : JsonValue → JsonValue
  | .null => .null
  | .bool b => .bool b
  | .num n => .num n
  | .str s => if isNumericString s then .str (decimalRepr (digitsToNat s.toList)) else .str s
  | .bignum n => .str (decimalRepr n)
  | .arr elems => .arr (sanitizeArray elems)
  | .obj fields => .obj (sanitizeObject fields)

def sanitizeArray : JsonArray → JsonArray
  | .nil => .nil
  | .cons hd tl => .cons (sanitizeNumbers hd) (sanitizeArray tl)

def sanitizeObject : JsonObject → JsonObject
  | .nil => .nil
  | .cons k v tl => .cons k (sanitizeNumbers v) (sanitizeObject tl)
end

mutual
/-- Shape of a JSON value: leaves erased, object keys and the order and
length of containers kept. -/
inductive JsonShape where
  | leaf : JsonShape
  | arr (elems : JsonShapeArray) : JsonShape
  | obj (fields : JsonShapeObject) : JsonShape

inductive JsonShapeArray where
  | nil : JsonShapeArray
  | cons (hd : JsonShape) (tl : JsonShapeArray) : JsonShapeArray

inductive JsonShapeObject where
  | nil : JsonShapeObject
  | cons (key : String) (hd : JsonShape) (tl : JsonShapeObject) : JsonShapeObject
end

mutual
def shape : JsonValue → JsonShape
  | .null => .leaf
  | .bool _ => .leaf
  | .num _ => .leaf
  | .str _ => .leaf
  | .bignum _ => .leaf
  | .arr elems => .arr (shapeArray elems)
  | .obj fields => .obj (shapeObject fields)

def shapeArray : JsonArray → JsonShapeArray
  | .nil => .nil
  | .cons hd tl => .cons (shape hd) (shapeArray tl)

def shapeObject : JsonObject → JsonShapeObject
  | .nil => .nil
  | .cons k v tl => .cons k (shape v) (shapeObject tl)
end

/-- Digits emitted by `toDigitsRevFuel` are decimal digits. -/
theorem isDigit_digitChar_mod (n : Nat) : (Nat.digitChar (n % 10)).isDigit = true := by
  have h : n % 10 < 10 := Nat.mod_lt _ (by omega)
  interval_cases h' : n % 10 <;> rfl

/-- Numeric value of the digit character of `n % 10`. -/
theorem toNat_digitChar_mod (n : Nat) : (Nat.digitChar (n % 10)).toNat - 48 = n % 10 := by
  have h : n % 10 < 10 := Nat.mod_lt _ (by omega)
  interval_cases h' : n % 10 <;> rfl

/-- Little-endian digit value helper. -/
def digitsFromRev : List Char → Nat
  | [] => 0
  | c :: cs => (c.toNat - 48) + 10 * digitsFromRev cs

theorem digitsToNat_reverse (cs : List Char) :
    digitsToNat cs.reverse = digitsFromRev cs := by
  induction cs with
  | nil => rfl
  | cons c cs ih =>
    simp only [digitsToNat, List.reverse_cons, List.foldl_append, List.foldl_cons,
      List.foldl_nil, digitsFromRev] at *
    omega

theorem digitsFromRev_toDigitsRevFuel (fuel n : Nat) (h : n ≤ fuel) :
    digitsFromRev (toDigitsRevFuel fuel n) = n := by
  induction fuel generalizing n with
  | zero => simp only [toDigitsRevFuel, digitsFromRev]; omega
  | succ fuel ih =>
    by_cases hn : n = 0
    · simp [toDigitsRevFuel, hn, digitsFromRev]
    · rw [toDigitsRevFuel, if_neg hn]
      rw [digitsFromRev, toNat_digitChar_mod, ih (n / 10) (by omega)]
      omega

/-- Round trip: reading back the canonical decimal string of `n` gives `n`. -/
theorem digitsToNat_decimalRepr (n : Nat) :
    digitsToNat (decimalRepr n).toList = n := by
  by_cases hn : n = 0
  · subst hn; rfl
  · rw [decimalRepr, if_neg hn]
    show digitsToNat (toDigitsRevFuel n n).reverse = n
    rw [digitsToNat_reverse, digitsFromRev_toDigitsRevFuel n n (le_refl n)]

theorem all_isDigit_toDigitsRevFuel (fuel n : Nat) :
    (toDigitsRevFuel fuel n).all Char.isDigit = true := by
  induction fuel generalizing n with
  | zero => rfl
  | succ fuel ih =>
    by_cases hn : n = 0
    · simp [toDigitsRevFuel, hn]
    · rw [toDigitsRevFuel, if_neg hn]
      simp [List.all_cons, isDigit_digitChar_mod, ih]

/-- The canonical decimal string is itself a numeric string. -/
theorem isNumericString_decimalRepr (n : Nat) :
    isNumericString (decimalRepr n) = true := by
  by_cases hn : n = 0
  · subst hn; rfl
  · rw [decimalRepr, if_neg hn]
    have hne : toDigitsRevFuel n n ≠ [] := by
      cases n with
      | zero => exact absurd rfl hn
      | succ k => rw [toDigitsRevFuel, if_neg hn]; simp
    show (!(toDigitsRevFuel n n).reverse.isEmpty &&
        (toDigitsRevFuel n n).reverse.all Char.isDigit) = true
    simp [List.isEmpty_iff, hne, List.all_reverse, all_isDigit_toDigitsRevFuel]

/-- Sanitizing a string leaf twice equals sanitizing it once. -/
theorem sanitize_str_idem (s : String) :
    sanitizeNumbers (sanitizeNumbers (.str s)) = sanitizeNumbers (.str s) := by
  rw [sanitizeNumbers]
  by_cases h : isNumericString s = true
  · rw [if_pos h, sanitizeNumbers, if_pos (isNumericString_decimalRepr _),
      digitsToNat_decimalRepr]
  · rw [if_neg h, sanitizeNumbers, if_neg h]

mutual
theorem sanitizeNumbers_idem : ∀ v, sanitizeNumbers (sanitizeNumbers v) = sanitizeNumbers v
  | .null => rfl
  | .bool _ => rfl
  | .num _ => rfl
  | .str s => sanitize_str_idem s
  | .bignum n => by
    rw [sanitizeNumbers, sanitizeNumbers, if_pos (isNumericString_decimalRepr n),
      digitsToNat_decimalRepr]
  | .arr elems => by rw [sanitizeNumbers, sanitizeNumbers, sanitizeArray_idem elems]
  | .obj fields => by rw [sanitizeNumbers, sanitizeNumbers, sanitizeObject_idem fields]

theorem sanitizeArray_idem : ∀ es, sanitizeArray (sanitizeArray es) = sanitizeArray es
  | .nil => rfl
  | .cons hd tl => by
    rw [sanitizeArray, sanitizeArray, sanitizeNumbers_idem hd, sanitizeArray_idem tl]

theorem sanitizeObject_idem : ∀ fs, sanitizeObject (sanitizeObject fs) = sanitizeObject fs
  | .nil => rfl
  | .cons k v tl => by
    rw [sanitizeObject, sanitizeObject, sanitizeNumbers_idem v, sanitizeObject_idem tl]
end

mutual
theorem shape_sanitizeNumbers : ∀ v, shape (sanitizeNumbers v) = shape v
  | .null => rfl
  | .bool _ => rfl
  | .num _ => rfl
  | .str s => by
    rw [sanitizeNumbers]
    by_cases h : isNumericString s = true
    · rw [if_pos h]; rfl
    · rw [if_neg h]
  | .bignum _ => rfl
  | .arr elems => by rw [sanitizeNumbers, shape, shape, shapeArray_sanitizeArray elems]
  | .obj fields => by rw [sanitizeNumbers, shape, shape, shapeObject_sanitizeObject fields]

theorem shapeArray_sanitizeArray : ∀ es, shapeArray (sanitizeArray es) = shapeArray es
  | .nil => rfl
  | .cons hd tl => by
    rw [sanitizeArray, shapeArray, shapeArray, shape_sanitizeNumbers hd,
      shapeArray_sanitizeArray tl]

theorem shapeObject_sanitizeObject : ∀ fs, shapeObject (sanitizeObject fs) = shapeObject fs
  | .nil => rfl
  | .cons k v tl => by
    rw [sanitizeObject, shapeObject, shapeObject, shape_sanitizeNumbers v,
      shapeObject_sanitizeObject tl]
end

instance {ε α : Type} [DecidableEq ε] [DecidableEq α] : DecidableEq (Except ε α) := fun a b =>
  match a, b with
  | .ok x, .ok y =>
    if h : x = y then .isTrue (by rw [h]) else .isFalse (fun c => by cases c; exact h rfl)
  | .error x, .error y =>
    if h : x = y then .isTrue (by rw [h]) else .isFalse (fun c => by cases c; exact h rfl)
  | .ok _, .error _ => .isFalse (fun c => by cases c)
  | .error _, .ok _ => .isFalse (fun c => by cases c)

/-! Concrete chain clients and errors used by witnesses and
counterexamples. -/

/-- A chain client whose lookups all succeed. -/
def stubClient : ChainClient :=
  ⟨fun n => .ok ("0xhash" ++ Nat.repr n), .ok 100, .ok "0xfinalized"⟩

/-- An upstream rejection value matching the basic legacy error shape but
not the transaction shape. -/
def basicShapedErr : RawLegacyError :=
  ⟨some "boom", some "d", some "c", none, none⟩

/-- An upstream rejection value matching the transaction legacy error
shape. -/
def txShapedErr : RawLegacyError :=
  ⟨some "e", some "d", some "c", some "st", some "tx"⟩

/-- A chain client whose hash-at-height lookup always rejects with a
basic-shaped error, while the header lookup reports height 10. -/
def failingClient : ChainClient :=
  ⟨fun _ => .error basicShapedErr, .ok 10, .ok "0xfinalized"⟩

/-- A 66-character hex string. -/
def hash66 : String := "0x" ++ String.mk (List.replicate 64 'a')

/-! Branch lemmas for `getHashForBlock`, shared by several claims. -/

theorem ghfb_hashBranch (api : ChainClient) (s : String)
    (h1 : isHex s = true) (h2 : s.length = 66) :
    getHashForBlock api s = (.ok s, []) := by
  simp [getHashForBlock, h1, h2]

theorem ghfb_wrongLength (api : ChainClient) (s : String)
    (h1 : isHex s = true) (h2 : s.length ≠ 66) :
    getHashForBlock api s = (.error (.badRequest (wrongLengthMsg s)), []) := by
  simp [getHashForBlock, h1, h2]

theorem ghfb_badHex (api : ChainClient) (s : String)
    (h1 : isHex s = false) (h2 : slice0x s = true) :
    getHashForBlock api s = (.error (.badRequest (notValidHexMsg s)), []) := by
  simp [getHashForBlock, h1, h2]

theorem ghfb_badNumber (api : ChainClient) (s : String) (e : SidecarError)
    (h1 : isHex s = false) (h2 : slice0x s = false)
    (h3 : parseNumberOrThrow s "Invalid block number" = .error e) :
    getHashForBlock api s = (.error (.badRequest (notHexOrDecimalMsg s)), []) := by
  simp [getHashForBlock, h1, h2, h3]

theorem ghfb_heightOk (api : ChainClient) (s : String) (n : Nat) (h : String)
    (h1 : isHex s = false) (h2 : slice0x s = false)
    (h3 : parseNumberOrThrow s "Invalid block number" = .ok n)
    (hb : api.getBlockHash n = .ok h) :
    getHashForBlock api s = (.ok h, [.getBlockHash n]) := by
  simp [getHashForBlock, h1, h2, h3, hb]

theorem ghfb_headerFail (api : ChainClient) (s : String) (n : Nat) (err : RawLegacyError)
    (e : RawLegacyError)
    (h1 : isHex s = false) (h2 : slice0x s = false)
    (h3 : parseNumberOrThrow s "Invalid block number" = .ok n)
    (hb : api.getBlockHash n = .error err)
    (hh : api.getHeader = .error e) :
    getHashForBlock api s =
      (.error (.internalServerError latestHeaderFailMsg),
        [.getBlockHash n, .getHeader]) := by
  simp [getHashForBlock, h1, h2, h3, hb, hh]

theorem ghfb_tooLarge (api : ChainClient) (s : String) (n : Nat) (err : RawLegacyError)
    (hdr : Nat)
    (h1 : isHex s = false) (h2 : slice0x s = false)
    (h3 : parseNumberOrThrow s "Invalid block number" = .ok n)
    (hb : api.getBlockHash n = .error err)
    (hh : api.getHeader = .ok hdr) (hlt : hdr < n) :
    getHashForBlock api s =
      (.error (.badRequest (largestBlockMsg hdr)),
        [.getBlockHash n, .getHeader]) := by
  have hn : n ≠ 0 := by omega
  simp [getHashForBlock, h1, h2, h3, hb, hh, hn, hlt]

theorem ghfb_basicRethrow (api : ChainClient) (s : String) (n : Nat) (err : RawLegacyError)
    (hdr : Nat)
    (h1 : isHex s = false) (h2 : slice0x s = false)
    (h3 : parseNumberOrThrow s "Invalid block number" = .ok n)
    (hb : api.getBlockHash n = .error err)
    (hh : api.getHeader = .ok hdr) (hge : ¬hdr < n)
    (hbl : isBasicLegacyError err = true) :
    getHashForBlock api s =
      (.error (.upstream err), [.getBlockHash n, .getHeader]) := by
  simp [getHashForBlock, h1, h2, h3, hb, hh, hge, hbl]

theorem ghfb_fallbackInternal (api : ChainClient) (s : String) (n : Nat)
    (err : RawLegacyError) (hdr : Nat)
    (h1 : isHex s = false) (h2 : slice0x s = false)
    (h3 : parseNumberOrThrow s "Invalid block number" = .ok n)
    (hb : api.getBlockHash n = .error err)
    (hh : api.getHeader = .ok hdr) (hge : ¬hdr < n)
    (hbl : isBasicLegacyError err = false) :
    getHashForBlock api s =
      (.error (.internalServerError (cannotGetBlockHashMsg s)),
        [.getBlockHash n, .getHeader]) := by
  simp [getHashForBlock, h1, h2, h3, hb, hh, hge, hbl]

theorem ghfb_heightErr (api : ChainClient) (s : String) (n : Nat) (err : RawLegacyError)
    (h1 : isHex s = false) (h2 : slice0x s = false)
    (h3 : parseNumberOrThrow s "Invalid block number" = .ok n)
    (hb : api.getBlockHash n = .error err) :
    (getHashForBlock api s).2 = [.getBlockHash n, .getHeader] := by
  cases hh : api.getHeader with
  | error e => rw [ghfb_headerFail api s n err e h1 h2 h3 hb hh]
  | ok hdr =>
    by_cases hlt : hdr < n
    · rw [ghfb_tooLarge api s n err hdr h1 h2 h3 hb hh hlt]
    · cases hbl : isBasicLegacyError err with
      | true => rw [ghfb_basicRethrow api s n err hdr h1 h2 h3 hb hh hlt hbl]
      | false => rw [ghfb_fallbackInternal api s n err hdr h1 h2 h3 hb hh hlt hbl]

/-! Claim C1. -/

/-- The property exactly as claim C1 states it: when a parsed height's
lookup fails and the header fetch succeeds, the resolver fails with the
largest-known-block `InputError` when the height exceeds the header height,
and with an `InternalError` otherwise. -/
def C1Statement : Prop :=
  ∀ (api : ChainClient) (s : String) (n : Nat) (err : RawLegacyError) (hdr : Nat),
    isHex s = false → slice0x s = false →
    parseNumberOrThrow s "Invalid block number" = .ok n →
    api.getBlockHash n = .error err →
    api.getHeader = .ok hdr →
    (hdr < n → (getHashForBlock api s).1 = .error (.badRequest (largestBlockMsg hdr))) ∧
    (¬hdr < n → ∃ m, (getHashForBlock api s).1 = .error (.internalServerError m))

/-- C1 fails on the code: for height 5 with header height 10, a lookup
failure whose rejection value matches the basic legacy error shape is
rethrown as that upstream value, not classified as `InternalError`. -/
theorem C1_counterexample : ¬C1Statement := by
  intro h
  obtain ⟨m, hm⟩ :=
    (h failingClient "5" 5 basicShapedErr 10 rfl (by decide) rfl rfl rfl).2 (by omega)
  have hres : (getHashForBlock failingClient "5").1 = .error (.upstream basicShapedErr) := rfl
  rw [hres] at hm
  exact absurd hm (by simp)

/-- C1 (amended): when a parsed height's lookup fails, the resolver fetches
the current header (and only those two chain calls happen); a failed header
fetch is an `InternalError`; with header height `hdr`, the failure is the
largest-known-block `InputError` (whose message includes `hdr`) exactly when
the requested height exceeds `hdr`; otherwise the original rejection is
rethrown unchanged when it matches the basic legacy error shape, and is
classified as `InternalError` only in the remaining cases. -/
theorem getHashForBlock_heightLookupFailure
    (api : ChainClient) (s : String) (n : Nat) (err : RawLegacyError)
    (h1 : isHex s = false) (h2 : slice0x s = false)
    (h3 : parseNumberOrThrow s "Invalid block number" = .ok n)
    (hb : api.getBlockHash n = .error err) :
    (getHashForBlock api s).2 = [.getBlockHash n, .getHeader] ∧
    (∀ e, api.getHeader = .error e →
      (getHashForBlock api s).1 = .error (.internalServerError latestHeaderFailMsg)) ∧
    (∀ hdr, api.getHeader = .ok hdr →
      ((getHashForBlock api s).1 = .error (.badRequest (largestBlockMsg hdr)) ↔ hdr < n)) ∧
    (∀ hdr, api.getHeader = .ok hdr → n ≤ hdr →
      (getHashForBlock api s).1 =
        if isBasicLegacyError err then .error (.upstream err)
        else .error (.internalServerError (cannotGetBlockHashMsg s))) := by
  refine ⟨ghfb_heightErr api s n err h1 h2 h3 hb, ?_, ?_, ?_⟩
  · intro e he
    rw [ghfb_headerFail api s n err e h1 h2 h3 hb he]
  · intro hdr hh
    constructor
    · intro heq
      by_contra hlt
      cases hbl : isBasicLegacyError err with
      | true =>
        rw [ghfb_basicRethrow api s n err hdr h1 h2 h3 hb hh hlt hbl] at heq
        simp at heq
      | false =>
        rw [ghfb_fallbackInternal api s n err hdr h1 h2 h3 hb hh hlt hbl] at heq
        simp at heq
    · intro hlt
      rw [ghfb_tooLarge api s n err hdr h1 h2 h3 hb hh hlt]
  · intro hdr hh hle
    cases hbl : isBasicLegacyError err with
    | true =>
      rw [ghfb_basicRethrow api s n err hdr h1 h2 h3 hb hh (by omega) hbl]
      simp [hbl]
    | false =>
      rw [ghfb_fallbackInternal api s n err hdr h1 h2 h3 hb hh (by omega) hbl]
      simp [hbl]

/-- Witness for C1's amended theorem at height 5 against a client whose
lookup rejects with a basic-shaped error while the header height is 10. -/
theorem getHashForBlock_heightLookupFailure_witness :
    (getHashForBlock failingClient "5").2 = [.getBlockHash 5, .getHeader] ∧
    (getHashForBlock failingClient "5").1 = .error (.upstream basicShapedErr) := by
  have h := getHashForBlock_heightLookupFailure failingClient "5" 5 basicShapedErr
    rfl (by decide) rfl rfl
  refine ⟨h.1, ?_⟩
  have h4 := h.2.2.2 10 rfl (by omega)
  simpa using h4

/-! Claim C2. -/

/-- A string that denotes a non-negative base-10 integer in the plain sense
of the claim: non-empty and consisting of decimal digits. -/
def specNonNegativeBase10Int (s : String) : Bool :=
  !s.toList.isEmpty && s.toList.all Char.isDigit

/-- The property exactly as claim C2 states it: every non-hex-shaped,
non-`0x`-prefixed identifier that is not a non-negative base-10 integer
fails with an `InputError` and no chain-client call. -/
def C2Statement : Prop :=
  ∀ (api : ChainClient) (s : String),
    isHex s = false → slice0x s = false →
    specNonNegativeBase10Int s = false →
    (∃ m, (getHashForBlock api s).1 = .error (.badRequest m)) ∧
    (getHashForBlock api s).2 = []

/-- C2 fails on the code: the empty string is not a non-negative base-10
integer, yet JavaScript `Number("")` is `0`, so the resolver treats it as
height 0 and calls the chain client (succeeding against a client that knows
height 0). -/
theorem C2_counterexample : ¬C2Statement := by
  intro h
  have he := h stubClient "" rfl (by decide) rfl
  have htrace : (getHashForBlock stubClient "").2 = [.getBlockHash 0] := rfl
  rw [htrace] at he
  exact List.cons_ne_nil _ _ he.2

/-- C2 (amended): every non-hex-shaped, non-`0x`-prefixed identifier is
treated as a height by JavaScript `Number` coercion (which also accepts the
empty/whitespace string as 0, scientific notation, and `0b`/`0o` literals):
whenever the coercion does not yield a non-negative integer the resolver
fails with the `InputError` of the invalid-block-number path, with no
chain-client call; whenever it yields the height `n`, the first chain call
is the hash lookup at `n`. -/
theorem getHashForBlock_heightPath (api : ChainClient) (s : String)
    (h1 : isHex s = false) (h2 : slice0x s = false) :
    (∀ e, parseNumberOrThrow s "Invalid block number" = .error e →
      getHashForBlock api s = (.error (.badRequest (notHexOrDecimalMsg s)), [])) ∧
    (∀ n, parseNumberOrThrow s "Invalid block number" = .ok n →
      (getHashForBlock api s).2.head? = some (.getBlockHash n)) := by
  constructor
  · intro e h3
    exact ghfb_badNumber api s e h1 h2 h3
  · intro n h3
    cases hb : api.getBlockHash n with
    | ok hsh => rw [ghfb_heightOk api s n hsh h1 h2 h3 hb]; rfl
    | error err => rw [ghfb_heightErr api s n err h1 h2 h3 hb]; rfl

/-- Witness for C2's amended theorem: a non-numeric identifier fails with
the invalid-block-number `InputError` and no chain call, and the identifier
5 produces a height-5 hash lookup as its first chain call. -/
theorem getHashForBlock_heightPath_witness :
    getHashForBlock stubClient "abc" = (.error (.badRequest (notHexOrDecimalMsg "abc")), []) ∧
    (getHashForBlock stubClient "5").2.head? = some (.getBlockHash 5) := by
  refine ⟨(getHashForBlock_heightPath stubClient "abc" rfl (by decide)).1
    (.badRequest "Invalid block number") rfl, ?_⟩
  exact (getHashForBlock_heightPath stubClient "5" rfl (by decide)).2 5 rfl

/-! Claim C3. -/

/-- C3: a valid 66-character hex identifier resolves to itself, with no
chain-client call. -/
theorem getHashForBlock_validHash (api : ChainClient) (s : String)
    (h1 : isHex s = true) (h2 : s.length = 66) :
    getHashForBlock api s = (.ok s, []) :=
  ghfb_hashBranch api s h1 h2

/-- Witness for C3 at a concrete 66-character hex string. -/
theorem getHashForBlock_validHash_witness :
    getHashForBlock stubClient hash66 = (.ok hash66, []) :=
  getHashForBlock_validHash stubClient hash66 (by decide) (by decide)

/-! Claim C4. -/

/-- C4: every hex-shaped identifier of length other than 66, and every
`0x`-prefixed identifier that is not valid hex (including the bare `0x`),
fails with an `InputError` and is never treated as a height (no chain-client
call). -/
theorem getHashForBlock_malformedHex (api : ChainClient) (s : String)
    (h : isHex s = true ∨ slice0x s = true)
    (hn : ¬(isHex s = true ∧ s.length = 66)) :
    getHashForBlock api s =
      (.error (.badRequest (if isHex s then wrongLengthMsg s else notValidHexMsg s)), []) := by
  cases hhex : isHex s with
  | true =>
    have h2 : s.length ≠ 66 := fun hc => hn ⟨hhex, hc⟩
    rw [ghfb_wrongLength api s hhex h2]
    simp
  | false =>
    have h2 : slice0x s = true := by
      rcases h with h | h
      · rw [hhex] at h; cases h
      · exact h
    rw [ghfb_badHex api s hhex h2]
    simp

/-- Witness for C4 at the bare string `0x` (hex-shaped, length 2). -/
theorem getHashForBlock_malformedHex_witness :
    getHashForBlock stubClient "0x" = (.error (.badRequest (wrongLengthMsg "0x")), []) := by
  have h := getHashForBlock_malformedHex stubClient "0x" (Or.inl rfl) (by decide)
  simpa using h

/-! Claim C5. -/

/-- C5: the transaction-error middleware responds 500 with exactly the
destructured body precisely when headers are unsent and the error matches
the transaction-fault shape; in every other case it writes nothing and
passes the error unchanged to the next middleware. -/
theorem txErrorMiddleware_spec (headersSent : Bool) (err : RawLegacyError) :
    (txErrorMiddleware headersSent err =
        .send 500 ⟨500, err.error, err.data, err.transaction, err.cause, err.stack⟩
      ↔ headersSent = false ∧ isTxLegacyError err = true) ∧
    (headersSent = true ∨ isTxLegacyError err = false →
      txErrorMiddleware headersSent err = .next err) := by
  cases headersSent with
  | true => simp [txErrorMiddleware]
  | false =>
    cases htx : isTxLegacyError err with
    | true => simp [txErrorMiddleware, htx]
    | false => simp [txErrorMiddleware, htx]

/-- Witness for C5: a transaction-shaped error with headers unsent produces
the 500 response; with headers sent it is passed along unchanged. -/
theorem txErrorMiddleware_spec_witness :
    txErrorMiddleware false txShapedErr =
      .send 500 ⟨500, some "e", some "d", some "tx", some "c", some "st"⟩ ∧
    txErrorMiddleware true txShapedErr = .next txShapedErr := by
  refine ⟨?_, (txErrorMiddleware_spec true txShapedErr).2 (Or.inl rfl)⟩
  have h := (txErrorMiddleware_spec false txShapedErr).1.mpr ⟨rfl, rfl⟩
  simpa using h

/-! Claim C6. -/

/-- C6: for every outcome of the inner handler, the guard's own promise
never rejects, a synchronous throw or asynchronous rejection is delivered
exactly once to the error pipeline, and a resolving handler delivers
nothing. -/
theorem catchWrap_spec {ε : Type} (run : HandlerOutcome ε) :
    (catchWrap run).promiseRejection = none ∧
    (∀ e, run = .syncThrow e → (catchWrap run).nextCalls = [e]) ∧
    (∀ e, run = .rejects e → (catchWrap run).nextCalls = [e]) ∧
    (run = .resolves → (catchWrap run).nextCalls = []) := by
  cases run <;> simp [catchWrap]

/-- Witness for C6 at a synchronous throw of a concrete error. -/
theorem catchWrap_spec_witness :
    (catchWrap (.syncThrow (0 : Nat))).promiseRejection = none ∧
    (catchWrap (.syncThrow (0 : Nat))).nextCalls = [0] := by
  have h := catchWrap_spec (HandlerOutcome.syncThrow (0 : Nat))
  exact ⟨h.1, h.2.1 0 rfl⟩

/-! Claim C7. -/

/-- C7: each of the three validation `InputError`s constructed inside the
resolver leaves `getHashForBlock` exactly as constructed — still the
`BadRequest` variant with its original message — and with an empty
chain-call trace, so the fallback header lookup of the height-failure path
never runs for them. -/
theorem resolverErrors_propagateUnchanged (api : ChainClient) (s : String) :
    (isHex s = true → s.length ≠ 66 →
      getHashForBlock api s = (.error (.badRequest (wrongLengthMsg s)), [])) ∧
    (isHex s = false → slice0x s = true →
      getHashForBlock api s = (.error (.badRequest (notValidHexMsg s)), [])) ∧
    (∀ e, isHex s = false → slice0x s = false →
      parseNumberOrThrow s "Invalid block number" = .error e →
      getHashForBlock api s = (.error (.badRequest (notHexOrDecimalMsg s)), [])) :=
  ⟨fun h1 h2 => ghfb_wrongLength api s h1 h2,
    fun h1 h2 => ghfb_badHex api s h1 h2,
    fun e h1 h2 h3 => ghfb_badNumber api s e h1 h2 h3⟩

/-- Witness for C7 on the three validation paths. -/
theorem resolverErrors_propagateUnchanged_witness :
    getHashForBlock stubClient "0x" = (.error (.badRequest (wrongLengthMsg "0x")), []) ∧
    getHashForBlock stubClient "0xabc" =
      (.error (.badRequest (notValidHexMsg "0xabc")), []) ∧
    getHashForBlock stubClient "abc" =
      (.error (.badRequest (notHexOrDecimalMsg "abc")), []) :=
  ⟨(resolverErrors_propagateUnchanged stubClient "0x").1 rfl (by decide),
    (resolverErrors_propagateUnchanged stubClient "0xabc").2.1 rfl (by decide),
    (resolverErrors_propagateUnchanged stubClient "abc").2.2
      (.badRequest "Invalid block number") rfl (by decide) rfl⟩

/-! Claim C8. -/

/-- C8: the sanitizer is total by construction, idempotent, and
structure-preserving (same keys, order and lengths), and non-numeric leaves
pass through unchanged. -/
theorem sanitizeNumbers_spec :
    (∀ v, sanitizeNumbers (sanitizeNumbers v) = sanitizeNumbers v) ∧
    (∀ v, shape (sanitizeNumbers v) = shape v) ∧
    (∀ s, isNumericString s = false → sanitizeNumbers (.str s) = .str s) ∧
    (∀ b, sanitizeNumbers (.bool b) = .bool b) ∧
    (∀ i, sanitizeNumbers (.num i) = .num i) ∧
    sanitizeNumbers .null = .null := by
  refine ⟨sanitizeNumbers_idem, shape_sanitizeNumbers, ?_, fun b => rfl, fun i => rfl, rfl⟩
  intro s hs
  rw [sanitizeNumbers, if_neg (by rw [hs]; exact Bool.false_ne_true)]

/-- Witness for C8 at a non-numeric string leaf. -/
theorem sanitizeNumbers_spec_witness :
    sanitizeNumbers (.str "abc") = .str "abc" :=
  sanitizeNumbers_spec.2.2.1 "abc" rfl

/-! Claim C9. -/

/-- C9: resolving the `at` query parameter with any non-string value does a
single finalized-head lookup — the same lookup a direct call would do — and
returns its hash (or propagates its raw failure), with no validation of the
value. -/
theorem getHashFromAt_nonString (api : ChainClient) (v : JsVal)
    (h : ∀ s, v ≠ .vStr s) :
    (getHashFromAt api v).2 = [.getFinalizedHead] ∧
    (∀ hsh, api.getFinalizedHead = .ok hsh → (getHashFromAt api v).1 = .ok hsh) ∧
    (∀ e, api.getFinalizedHead = .error e →
      (getHashFromAt api v).1 = .error (.upstream e)) := by
  cases v with
  | vStr s => exact absurd rfl (h s)
  | vUndefined =>
    cases hf : api.getFinalizedHead <;> simp [getHashFromAt, hf]
  | vNull =>
    cases hf : api.getFinalizedHead <;> simp [getHashFromAt, hf]
  | vBool b =>
    cases hf : api.getFinalizedHead <;> simp [getHashFromAt, hf]
  | vNum n =>
    cases hf : api.getFinalizedHead <;> simp [getHashFromAt, hf]
  | vNaN =>
    cases hf : api.getFinalizedHead <;> simp [getHashFromAt, hf]
  | vObject =>
    cases hf : api.getFinalizedHead <;> simp [getHashFromAt, hf]

/-- Witness for C9 at the absent (`undefined`) parameter. -/
theorem getHashFromAt_nonString_witness :
    (getHashFromAt stubClient .vUndefined).2 = [.getFinalizedHead] ∧
    (getHashFromAt stubClient .vUndefined).1 = .ok "0xfinalized" := by
  have h := getHashFromAt_nonString stubClient .vUndefined (fun s hc => by cases hc)
  exact ⟨h.1, h.2.1 "0xfinalized" rfl⟩

/-! Claim C10. -/

/-- The property exactly as claim C10 states it: a present (non-`undefined`)
parameter of non-string type fails with an `InputError`, and a missing
parameter returns the caller-supplied default. -/
def C10Statement : Prop :=
  ∀ (nm : String) (v : JsVal) (d : Option Nat),
    (v = .vUndefined → verifyAndCastOr nm v d = .ok d) ∧
    (v ≠ .vUndefined → (∀ s, v ≠ .vStr s) →
      ∃ m, verifyAndCastOr nm v d = .error (.badRequest m))

/-- C10 fails on the code: the number `0` is present and non-string, yet it
is falsy, so `verifyAndCastOr` returns the default instead of failing. -/
theorem C10_counterexample : ¬C10Statement := by
  intro h
  obtain ⟨m, hm⟩ :=
    (h "depth" (.vNum 0) (some 7)).2 (by simp) (fun s => by simp)
  have hres : verifyAndCastOr "depth" (.vNum 0) (some 7) = .ok (some 7) := rfl
  rw [hres] at hm
  exact absurd hm (by simp)

/-- C10 (amended): a falsy parameter (`undefined`, `null`, `false`, `0`,
`NaN`, the empty string) returns the caller-supplied default; a truthy
non-string fails with the incorrect-argument `InputError`; a truthy string
is parsed by JavaScript `Number` coercion, returning the value when it is a
non-negative integer and failing with the invalid-number `InputError`
otherwise. -/
theorem verifyAndCastOr_spec (nm : String) (v : JsVal) (d : Option Nat) :
    (truthy v = false → verifyAndCastOr nm v d = .ok d) ∧
    (truthy v = true → (∀ s, v ≠ .vStr s) →
      verifyAndCastOr nm v d = .error (.badRequest
        ("Incorrect argument quantity or type passed in for " ++ nm ++ " query param"))) ∧
    (∀ s n, v = .vStr s → truthy v = true →
      parseNumberOrThrow s (nm ++ " query param is an invalid number") = .ok n →
      verifyAndCastOr nm v d = .ok (some n)) ∧
    (∀ s e, v = .vStr s → truthy v = true →
      parseNumberOrThrow s (nm ++ " query param is an invalid number") = .error e →
      verifyAndCastOr nm v d = .error e) := by
  refine ⟨fun hf => by simp [verifyAndCastOr, hf], ?_, ?_, ?_⟩
  · intro ht hns
    cases v with
    | vStr s => exact absurd rfl (hns s)
    | vUndefined => cases ht
    | vNull => cases ht
    | vBool b => simp [verifyAndCastOr, ht]
    | vNum n => simp [verifyAndCastOr, ht]
    | vNaN => cases ht
    | vObject => simp [verifyAndCastOr, ht]
  · intro s n hv ht hp
    subst hv
    simp [verifyAndCastOr, ht, hp]
  · intro s e hv ht hp
    subst hv
    simp [verifyAndCastOr, ht, hp]

/-- Witness for C10's amended theorem: missing parameter yields the
default, a truthy object fails, and the string 5 parses. -/
theorem verifyAndCastOr_spec_witness :
    verifyAndCastOr "depth" .vUndefined (some 7) = .ok (some 7) ∧
    verifyAndCastOr "depth" .vObject none =
      .error (.badRequest
        "Incorrect argument quantity or type passed in for depth query param") ∧
    verifyAndCastOr "depth" (.vStr "5") none = .ok (some 5) := by
  refine ⟨(verifyAndCastOr_spec "depth" .vUndefined (some 7)).1 rfl, ?_, ?_⟩
  · have h := (verifyAndCastOr_spec "depth" .vObject none).2.1 rfl (fun s hc => by cases hc)
    simpa using h
  · exact (verifyAndCastOr_spec "depth" (.vStr "5") none).2.2.1 "5" 5 rfl rfl rfl

end Sidecar
